import Mathlib

/-!
Shallow embedding of the topology-virtualization engine of `CpuLimiter.c`
(jkriegshauser/CpuLimiter).

The engine intercepts Windows processor-topology and affinity calls and
rewrites their results against a fixed virtual CPU set of `NUM_CPUS = 24`
processors (mask `(1 << 24) - 1`).  Machine integers (`DWORD`, `DWORD_PTR`,
`KAFFINITY`, `WORD`, `BYTE`) are modelled as `Nat`; the only wrap-around the
hooked code relies on is the `(DWORD)-1` failure sentinel, modelled as the
explicit constant `2 ^ 32 - 1`.  Pointer parameters that may be `NULL` are
modelled as `Option`: `none` is a null pointer, `some v` is a non-null
pointer whose pointee holds `v`.  The raw OS functions captured by the hooks
(`Orig...`) are external inputs; each embedded entry point takes the
behaviour of the corresponding raw call as an argument, so a theorem
quantified over that argument covers every possible behaviour of the real
provider.  The `static bool called` flags in the C source only gate
diagnostic logging and never influence a computed result; they are modelled
explicitly for the two system-info hooks (whose claim is about call-order
independence) and elided elsewhere.
-/

namespace CpuLimiter

/-- The virtual CPU count: `#define NUM_CPUS 24u`, `const unsigned kNumCpus`. -/
def kNumCpus : Nat := 24

/-- The virtual CPU mask: `const unsigned long long kCpuMask = (1ull << NUM_CPUS) - 1`. -/
def kCpuMask : Nat := 2 ^ kNumCpus - 1

/-- The "no preference" sentinel accepted by `SetThreadIdealProcessor`.
For the x64 build targeted by this DLL, winnt.h defines
`MAXIMUM_PROCESSORS` as 64. -/
def MAXIMUM_PROCESSORS : Nat := 64

/-- The `(DWORD)-1` failure sentinel returned by `SetThreadIdealProcessor`. -/
def DWORD_NEG1 : Nat := 2 ^ 32 - 1

/-- A value is inside the virtual CPU set when masking it with `kCpuMask`
changes nothing (i.e. `v & ~kCpuMask == 0`). -/
def inVirtualMask (v : Nat) : Prop := v &&& kCpuMask = v

instance (v : Nat) : Decidable (inVirtualMask v) := by
  unfold inVirtualMask; infer_instance

/-! ### SYSTEM_INFO facade (`MyGetSystemInfo`, `MyGetNativeSystemInfo`) -/

/-- The fields of the Win32 `SYSTEM_INFO` structure filled by
`GetSystemInfo` / `GetNativeSystemInfo`. -/
structure SYSTEM_INFO where
  wProcessorArchitecture : Nat
  wReserved : Nat
  dwPageSize : Nat
  lpMinimumApplicationAddress : Nat
  lpMaximumApplicationAddress : Nat
  dwActiveProcessorMask : Nat
  dwNumberOfProcessors : Nat
  dwProcessorType : Nat
  dwAllocationGranularity : Nat
  wProcessorLevel : Nat
  wProcessorRevision : Nat
deriving Repr, DecidableEq

/-- `MyGetSystemInfo`: calls the raw provider (whose output is the `orig`
argument), then clamps `dwNumberOfProcessors` with
`min(pinfo->dwNumberOfProcessors, kNumCpus)`.  The `called` flag only
gates a log line; the hook sets it to `true` and it never affects the
returned structure. -/
def MyGetSystemInfo (called : Bool) (orig : SYSTEM_INFO) : Bool × SYSTEM_INFO :=
  (true, { orig with dwNumberOfProcessors := min orig.dwNumberOfProcessors kNumCpus })

/-- `MyGetNativeSystemInfo`: identical clamping over `OrigGetNativeSystemInfo`. -/
def MyGetNativeSystemInfo (called : Bool) (orig : SYSTEM_INFO) : Bool × SYSTEM_INFO :=
  (true, { orig with dwNumberOfProcessors := min orig.dwNumberOfProcessors kNumCpus })

/-! ### Affinity-mask hooks -/

/-- `MyGetProcessAffinityMask`: `retval` is the raw call's boolean result,
`processMask` / `systemMask` are the pointees of the two output pointers
after the raw call (`none` = the caller passed `NULL`).  When the raw call
succeeded, each non-null pointee is intersected with `kCpuMask`; on failure
nothing is touched.  Result: (returned boolean, final pointees). -/
def MyGetProcessAffinityMask (retval : Bool) (processMask systemMask : Option Nat) :
    Bool × Option Nat × Option Nat :=
  if retval then
    (retval, processMask.map (· &&& kCpuMask), systemMask.map (· &&& kCpuMask))
  else
    (retval, processMask, systemMask)

/-- `MySetProcessAffinityMask`: forwards `dwProcessAffinityMask & kCpuMask`
to the raw provider (`orig` maps the forwarded mask to the raw boolean
result) and returns the result verbatim.  Also returns the mask it
forwarded, so theorems can speak about it. -/
def MySetProcessAffinityMask (orig : Nat → Bool) (dwProcessAffinityMask : Nat) :
    Bool × Nat :=
  let myAffinityMask := dwProcessAffinityMask &&& kCpuMask
  (orig myAffinityMask, myAffinityMask)

/-- `MySetThreadAffinityMask`: forwards `dwThreadAffinityMask & kCpuMask`;
the raw provider's returned previous mask is masked with `kCpuMask` before
being handed back.  Result: (returned previous mask, forwarded mask). -/
def MySetThreadAffinityMask (orig : Nat → Nat) (dwThreadAffinityMask : Nat) :
    Nat × Nat :=
  let myAffinityMask := dwThreadAffinityMask &&& kCpuMask
  (orig myAffinityMask &&& kCpuMask, myAffinityMask)

/-! ### Group-affinity hooks (pass-through, "Just logging for now") -/

/-- Win32 `GROUP_AFFINITY`. -/
structure GROUP_AFFINITY where
  Mask : Nat
  Group : Nat
deriving Repr, DecidableEq

/-- `MyGetProcessGroupAffinity`: logs and returns the raw result and the
raw pointees unchanged (`GroupCount` pointee, `GroupArray` contents). -/
def MyGetProcessGroupAffinity (retval : Bool) (groupCount : Option Nat)
    (groupArray : Option (List Nat)) : Bool × Option Nat × Option (List Nat) :=
  (retval, groupCount, groupArray)

/-- `MyGetThreadGroupAffinity`: logs and returns the raw result and the raw
`GROUP_AFFINITY` pointee unchanged. -/
def MyGetThreadGroupAffinity (retval : Bool) (groupAffinity : Option GROUP_AFFINITY) :
    Bool × Option GROUP_AFFINITY :=
  (retval, groupAffinity)

/-- `MySetThreadGroupAffinity`: logs and forwards; the requested affinity
reaches the raw provider unfiltered and the previous-affinity pointee is
returned unchanged. -/
def MySetThreadGroupAffinity (retval : Bool) (previousGroupAffinity : Option GROUP_AFFINITY) :
    Bool × Option GROUP_AFFINITY :=
  (retval, previousGroupAffinity)

/-! ### Ideal-processor hooks -/

/-- `MySetThreadIdealProcessor`: rejects an index that is `>= kNumCpus` and
not `MAXIMUM_PROCESSORS` by returning `(DWORD)-1` without calling the raw
provider; otherwise forwards the index, propagates the `(DWORD)-1` failure
value verbatim, and reduces a successful previous-ideal result modulo
`kNumCpus`.  `orig` maps the forwarded index to the raw call's result; the
boolean in the result records whether the raw provider was invoked. -/
def MySetThreadIdealProcessor (orig : Nat → Nat) (dwIdealProcessor : Nat) :
    Bool × Nat :=
  if dwIdealProcessor ≥ kNumCpus ∧ dwIdealProcessor ≠ MAXIMUM_PROCESSORS then
    (false, DWORD_NEG1)
  else
    let retval := orig dwIdealProcessor
    if retval = DWORD_NEG1 then (true, retval)
    else (true, retval % kNumCpus)

/-- Win32 `PROCESSOR_NUMBER`. -/
structure PROCESSOR_NUMBER where
  Group : Nat
  Number : Nat
deriving Repr, DecidableEq

/-- `MySetThreadIdealProcessorEx`: pure pass-through — the raw result and
the previous-ideal-processor pointee written by the raw provider are
returned unchanged. -/
def MySetThreadIdealProcessorEx (retval : Bool)
    (lpPreviousIdealProcessor : Option PROCESSOR_NUMBER) :
    Bool × Option PROCESSOR_NUMBER :=
  (retval, lpPreviousIdealProcessor)

/-! ### Fixed-record topology cache (`CacheCPUInfo`, `MyGetLogicalProcessorInformation`) -/

/-- One entry of the `GetLogicalProcessorInformation` array
(`SYSTEM_LOGICAL_PROCESSOR_INFORMATION`).  The filter only reads and
rewrites `ProcessorMask`; the relationship tag and the 16-byte union
payload are copied through untouched, so the latter is modelled as an
opaque `Nat`. -/
structure SYSTEM_LOGICAL_PROCESSOR_INFORMATION where
  ProcessorMask : Nat
  Relationship : Nat
  Payload : Nat
deriving Repr, DecidableEq

/-- Byte size of one `SYSTEM_LOGICAL_PROCESSOR_INFORMATION` record on x64:
8 (mask) + 4 (relationship) + 4 (padding) + 16 (union). -/
def sizeofSLPI : Nat := 32

/-- The per-record step of `CacheCPUInfo`'s filtering loop (source lines
800-811): keep a record iff `read->ProcessorMask & kCpuMask` is non-zero,
rewriting the kept record's mask to the intersection. -/
def filterSLPIRecord (r : SYSTEM_LOGICAL_PROCESSOR_INFORMATION) :
    Option SYSTEM_LOGICAL_PROCESSOR_INFORMATION :=
  if r.ProcessorMask &&& kCpuMask ≠ 0 then
    some { r with ProcessorMask := r.ProcessorMask &&& kCpuMask }
  else
    none

/-- The whole filtering walk of `CacheCPUInfo`: a stable in-place compaction
of the records that survive `filterSLPIRecord`. -/
def CacheCPUInfoFilter (records : List SYSTEM_LOGICAL_PROCESSOR_INFORMATION) :
    List SYSTEM_LOGICAL_PROCESSOR_INFORMATION :=
  records.filterMap filterSLPIRecord

/-- State of the fixed-topology cache: `CachedCPUInfo` / `CachedCPUInfoCount`
(`none` = the `NULL` pointer, nothing cached yet). -/
structure FixedCacheState where
  cached : Option (List SYSTEM_LOGICAL_PROCESSOR_INFORMATION)
deriving Repr, DecidableEq

/-- Behaviour of the raw `GetLogicalProcessorInformation` during one call
into the engine.  `sizeQueryInsufficient` is true when the null-buffer size
probe returns `FALSE` with `GetLastError() == ERROR_INSUFFICIENT_BUFFER`
(the expected signal); `fillOk` is the boolean result of the follow-up data
query; `records` is the array that query fills; `nullForwardResult` is what
`OrigGetLogicalProcessorInformation(NULL, NULL)` returns. -/
structure FixedProvider where
  sizeQueryInsufficient : Bool
  fillOk : Bool
  records : List SYSTEM_LOGICAL_PROCESSOR_INFORMATION
  nullForwardResult : Bool
deriving Repr, DecidableEq

/-- `CacheCPUInfo` (source lines 774-832): probe the raw size, requery into
a scratch buffer, filter, then — under the lock, if the cache is still
absent — allocate (`allocOk` is the `HeapAlloc` outcome) and publish.
Returns the boolean result and the new cache state.  Every failure path
leaves the cache state exactly as it was. -/
def CacheCPUInfo (st : FixedCacheState) (prov : FixedProvider) (allocOk : Bool) :
    Bool × FixedCacheState :=
  if ¬prov.sizeQueryInsufficient then (false, st)
  else if ¬prov.fillOk then (false, st)
  else
    match st.cached with
    | some _ => (true, st)
    | none =>
      if ¬allocOk then (false, st)
      else (true, ⟨some (CacheCPUInfoFilter prov.records)⟩)

/-- The `if (!CachedCPUInfo && !CacheCPUInfo())` guard at the top of
`MyGetLogicalProcessorInformation` (source line 956). -/
def EnsureCPUInfo (st : FixedCacheState) (prov : FixedProvider) (allocOk : Bool) :
    Bool × FixedCacheState :=
  match st.cached with
  | some _ => (true, st)
  | none => CacheCPUInfo st prov allocOk

/-- Observable outcome of one topology query call.  `returnedLength` is the
final pointee of `ReturnedLength` (`none` = the caller passed `NULL`);
`written` is the data copied into `Buffer` (`none` = nothing written);
`forwarded` records whether the call was handed to the raw provider for the
null-`ReturnedLength` passthrough; `insufficientSignaled` records
`SetLastError(ERROR_INSUFFICIENT_BUFFER)`. -/
structure TopologyQueryResult (α : Type) where
  ret : Bool
  returnedLength : Option Nat
  written : Option α
  forwarded : Bool
  insufficientSignaled : Bool
deriving Repr, DecidableEq

/-- `MyGetLogicalProcessorInformation` (source lines 946-975).
`bufferPresent` is whether `Buffer` is non-null, `returnedLength` the
incoming pointee of `ReturnedLength` (`none` = null pointer).  The call
first ensures the cache (failing locally when the build fails), then
handles a null `ReturnedLength` by forwarding `Orig(NULL, NULL)`, then runs
the two-phase buffer protocol against the cached byte size. -/
def MyGetLogicalProcessorInformation (st : FixedCacheState) (prov : FixedProvider)
    (allocOk : Bool) (bufferPresent : Bool) (returnedLength : Option Nat) :
    FixedCacheState × TopologyQueryResult (List SYSTEM_LOGICAL_PROCESSOR_INFORMATION) :=
  let ensured := EnsureCPUInfo st prov allocOk
  if ¬ensured.1 then
    (ensured.2, ⟨false, returnedLength, none, false, false⟩)
  else
    match returnedLength with
    | none => (ensured.2, ⟨prov.nullForwardResult, none, none, true, false⟩)
    | some len =>
      let cachedBytes := (ensured.2.cached.getD []).length * sizeofSLPI
      if ¬bufferPresent ∨ len < cachedBytes then
        (ensured.2, ⟨false, some cachedBytes, none, false, true⟩)
      else
        (ensured.2, ⟨true, some cachedBytes, some (ensured.2.cached.getD []), false, false⟩)

/-! ### Extended topology cache (`CacheCPUInfoExLocked`, `MyGetLogicalProcessorInformationEx`) -/

/-- The four relationship tags that select the `Processor` union member in
`CacheCPUInfoExLocked`'s switch (`RelationProcessorCore`, `...Die`,
`...Module`, `...Package`). -/
inductive ProcKind where
  | core
  | die
  | procModule
  | package
deriving Repr, DecidableEq

/-- `PROCESSOR_RELATIONSHIP`: flags, efficiency class, a group count and a
variable-length `GroupMask` array of `GROUP_AFFINITY`. -/
structure PROCESSOR_RELATIONSHIP where
  Flags : Nat
  EfficiencyClass : Nat
  GroupCount : Nat
  GroupMask : List GROUP_AFFINITY
deriving Repr, DecidableEq

/-- `NUMA_NODE_RELATIONSHIP`: node number, group count, and the
`GroupMask`/`GroupMasks[]` union — `GroupMask` aliases `GroupMasks[0]`, so
only the array is stored. -/
structure NUMA_NODE_RELATIONSHIP where
  NodeNumber : Nat
  GroupCount : Nat
  GroupMasks : List GROUP_AFFINITY
deriving Repr, DecidableEq

/-- `CACHE_RELATIONSHIP`: cache description, group count, and the
`GroupMask`/`GroupMasks[]` union (again `GroupMask` = `GroupMasks[0]`). -/
structure CACHE_RELATIONSHIP where
  Level : Nat
  Associativity : Nat
  LineSize : Nat
  CacheSize : Nat
  CacheType : Nat
  GroupCount : Nat
  GroupMasks : List GROUP_AFFINITY
deriving Repr, DecidableEq

/-- `PROCESSOR_GROUP_INFO`: one processor group's counts and active mask. -/
structure PROCESSOR_GROUP_INFO where
  MaximumProcessorCount : Nat
  ActiveProcessorCount : Nat
  ActiveProcessorMask : Nat
deriving Repr, DecidableEq

/-- `GROUP_RELATIONSHIP`: group counts and a variable-length
`GroupInfo` array. -/
structure GROUP_RELATIONSHIP where
  MaximumGroupCount : Nat
  ActiveGroupCount : Nat
  GroupInfo : List PROCESSOR_GROUP_INFO
deriving Repr, DecidableEq

/-- The tagged union of one `SYSTEM_LOGICAL_PROCESSOR_INFORMATION_EX`
record: the `Relationship` tag together with the union member it selects.
An `unknown` payload carries any other tag value (e.g. `RelationAll` or a
tag from a newer OS) with its uninterpreted bytes. -/
inductive ExPayload where
  | processor (kind : ProcKind) (p : PROCESSOR_RELATIONSHIP)
  | numaNode (ex : Bool) (p : NUMA_NODE_RELATIONSHIP)
  | cache (p : CACHE_RELATIONSHIP)
  | group (p : GROUP_RELATIONSHIP)
  | unknown (tag : Nat) (payload : Nat)
deriving Repr, DecidableEq

/-- One record of the variable-length `GetLogicalProcessorInformationEx`
chain: its declared `Size` field (used by the traversal to find the next
record) and its payload. -/
structure ExRecord where
  Size : Nat
  Payload : ExPayload
deriving Repr, DecidableEq

/-- Default `GROUP_AFFINITY` used when the C code reads `GroupMask[0]` of a
record whose modelled array is empty. -/
def GROUP_AFFINITY.zero : GROUP_AFFINITY := ⟨0, 0⟩

/-- Default `PROCESSOR_GROUP_INFO` for the analogous `GroupInfo[0]` read. -/
def PROCESSOR_GROUP_INFO.zero : PROCESSOR_GROUP_INFO := ⟨0, 0, 0⟩

/-- Byte offset of `Processor.GroupMask[1]` from the start of an x64
`SYSTEM_LOGICAL_PROCESSOR_INFORMATION_EX` record: 8 (header) + 24
(`PROCESSOR_RELATIONSHIP` through `GroupCount`) + 16 (`GROUP_AFFINITY`). -/
def processorSingleGroupSize : Nat := 48

/-- Byte offset of `NumaNode.GroupMasks[1]`: 8 + 24 + 16. -/
def numaSingleGroupSize : Nat := 48

/-- Byte offset of `Cache.GroupMasks[1]`: 8 + 32 + 16. -/
def cacheSingleGroupSize : Nat := 56

/-- Byte offset of `Group.GroupInfo[1]`: 8 + 24 + 48. -/
def groupSingleGroupSize : Nat := 80

/-- The single-group payload layout size for a record's relationship kind
(the `size` value `CacheCPUInfoExLocked` computes for a kept record).
Unknown-relationship records are always dropped, so no size corresponds to
them; 0 is used. -/
def singleGroupSizeOf (r : ExRecord) : Nat :=
  match r.Payload with
  | .processor _ _ => processorSingleGroupSize
  | .numaNode _ _ => numaSingleGroupSize
  | .cache _ => cacheSingleGroupSize
  | .group _ => groupSingleGroupSize
  | .unknown _ _ => 0

/-- The per-record body of `CacheCPUInfoExLocked`'s filtering loop (source
lines 866-928): the switch that drops or trims one record.  `none` means
the record is culled (`continue`); `some r` gives the record as it appears
in the compacted output, with its `Size` rewritten to the single-group
layout size (`write->Size = size`). -/
def filterExRecord (r : ExRecord) : Option ExRecord :=
  match r.Payload with
  | .processor kind p =>
    if p.GroupCount = 0 then none
    else
      let p1 := if p.GroupCount > 1 then { p with GroupCount := 1 } else p
      let gm0 := p1.GroupMask.head?.getD GROUP_AFFINITY.zero
      if gm0.Mask &&& kCpuMask = 0 then none
      else
        some ⟨processorSingleGroupSize,
          .processor kind { p1 with GroupMask := [{ gm0 with Mask := gm0.Mask &&& kCpuMask }] }⟩
  | .numaNode ex p =>
    let p1 := if p.GroupCount > 1 then { p with GroupCount := 1 } else p
    let gm0 := p1.GroupMasks.head?.getD GROUP_AFFINITY.zero
    if gm0.Mask &&& kCpuMask = 0 then none
    else
      some ⟨numaSingleGroupSize,
        .numaNode ex { p1 with GroupMasks := [{ gm0 with Mask := gm0.Mask &&& kCpuMask }] }⟩
  | .cache p =>
    let p1 := if p.GroupCount > 1 then { p with GroupCount := 1 } else p
    let gm0 := p1.GroupMasks.head?.getD GROUP_AFFINITY.zero
    if gm0.Mask &&& kCpuMask = 0 then none
    else
      some ⟨cacheSingleGroupSize,
        .cache { p1 with GroupMasks := [{ gm0 with Mask := gm0.Mask &&& kCpuMask }] }⟩
  | .group p =>
    if p.ActiveGroupCount = 0 then none
    else
      let p1 := if p.MaximumGroupCount > 1 then { p with MaximumGroupCount := 1 } else p
      let p2 := if p1.ActiveGroupCount > 1 then { p1 with ActiveGroupCount := 1 } else p1
      let g0 := p2.GroupInfo.head?.getD PROCESSOR_GROUP_INFO.zero
      let g1 := if g0.ActiveProcessorCount > kNumCpus then
          { g0 with ActiveProcessorCount := kNumCpus } else g0
      let g2 := if g1.MaximumProcessorCount > kNumCpus then
          { g1 with MaximumProcessorCount := kNumCpus } else g1
      let g3 := { g2 with ActiveProcessorMask := g2.ActiveProcessorMask &&& kCpuMask }
      some ⟨groupSingleGroupSize, .group { p2 with GroupInfo := [g3] }⟩
  | .unknown _ _ => none

/-- The whole filtering walk of `CacheCPUInfoExLocked`: a stable in-place
compaction of the records that survive `filterExRecord`. -/
def CacheCPUInfoExFilter (records : List ExRecord) : List ExRecord :=
  records.filterMap filterExRecord

/-- Total byte length of a record chain (sum of the declared `Size`
fields, which is exactly how the C code measures the buffers). -/
def exTotalBytes (records : List ExRecord) : Nat :=
  (records.map ExRecord.Size).sum

/-- The relationship argument of `GetLogicalProcessorInformationEx`:
either one of the seven recognized tags (as the tag of an `ExPayload`
shape) or any other numeric tag.  For cache-key comparison only equality
matters, so the numeric tag space is modelled by `Nat`. -/
abbrev LOGICAL_PROCESSOR_RELATIONSHIP : Type := Nat

/-- State of the extended cache: `CachedRelationship`, `CachedCPUInfoEx`
and `CachedCPUInfoExBytes`.  In the C code the invariant `CachedCPUInfoEx
== NULL ↔ CachedRelationship == -1 ∧ CachedCPUInfoExBytes == 0` holds at
every lock release, so the three variables are modelled as one option:
`none` is the empty cache (`NULL` / `-1` / `0`), `some (rel, data)` the
populated one (`CachedCPUInfoExBytes` is `exTotalBytes data`). -/
abbrev ExCacheState : Type := Option (LOGICAL_PROCESSOR_RELATIONSHIP × List ExRecord)

/-- Behaviour of the raw `GetLogicalProcessorInformationEx` for the
requested relationship during one call: the size-probe signal, the data
query result and data, and the result of the bad-input passthrough call
made when `ReturnedLength` is `NULL`. -/
structure ExProvider where
  sizeQueryInsufficient : Bool
  fillOk : Bool
  records : List ExRecord
  badLenForwardResult : Bool
deriving Repr, DecidableEq

/-- `CacheCPUInfoExLocked` (source lines 836-944): free any previously
cached data (resetting tag and byte count), probe the raw size, requery
into scratch, filter/compact, then allocate the cache copy (`allocOk`) and
publish it tagged with the requested relationship.  Every failure path
returns with the cache left empty. -/
def CacheCPUInfoExLocked (st : ExCacheState) (rel : LOGICAL_PROCESSOR_RELATIONSHIP)
    (prov : ExProvider) (allocOk : Bool) : Bool × ExCacheState :=
  let st1 : ExCacheState := none
  if ¬prov.sizeQueryInsufficient then (false, st1)
  else if ¬prov.fillOk then (false, st1)
  else if ¬allocOk then (false, st1)
  else (true, some (rel, CacheCPUInfoExFilter prov.records))

/-- `MyGetLogicalProcessorInformationEx` (source lines 977-1017): a null
`ReturnedLength` is forwarded to the raw provider unmodified before the
lock is taken; otherwise, under the lock, the cache is rebuilt when absent
or tagged with a different relationship, and the two-phase buffer protocol
is served from the cached bytes. -/
def MyGetLogicalProcessorInformationEx (st : ExCacheState)
    (rel : LOGICAL_PROCESSOR_RELATIONSHIP) (prov : ExProvider) (allocOk : Bool)
    (bufferPresent : Bool) (returnedLength : Option Nat) :
    ExCacheState × TopologyQueryResult (List ExRecord) :=
  match returnedLength with
  | none => (st, ⟨prov.badLenForwardResult, none, none, true, false⟩)
  | some len =>
    let rebuilt :=
      match st with
      | some (r, data) =>
        if r = rel then (true, some (r, data)) else CacheCPUInfoExLocked st rel prov allocOk
      | none => CacheCPUInfoExLocked st rel prov allocOk
    if ¬rebuilt.1 then
      (rebuilt.2, ⟨false, some len, none, false, false⟩)
    else
      let data := (rebuilt.2.getD (0, [])).2
      let cachedBytes := exTotalBytes data
      if ¬bufferPresent ∨ len < cachedBytes then
        (rebuilt.2, ⟨false, some cachedBytes, none, false, true⟩)
      else
        (rebuilt.2, ⟨true, some cachedBytes, some data, false, false⟩)

/-! ### Helper lemmas -/

/-- Masking with `kCpuMask` is idempotent. -/
theorem land_mask_idem (m : Nat) : (m &&& kCpuMask) &&& kCpuMask = m &&& kCpuMask := by
  rw [Nat.land_assoc, Nat.and_self]

/-- A value masked with `kCpuMask` lies inside the virtual CPU set. -/
theorem inVirtualMask_land (m : Nat) : inVirtualMask (m &&& kCpuMask) :=
  land_mask_idem m

/-- The fixed-topology filter is literally a stable filter followed by a
mask rewrite. -/
theorem CacheCPUInfoFilter_eq (rs : List SYSTEM_LOGICAL_PROCESSOR_INFORMATION) :
    CacheCPUInfoFilter rs
      = (rs.filter (fun r => r.ProcessorMask &&& kCpuMask != 0)).map
          (fun r => { r with ProcessorMask := r.ProcessorMask &&& kCpuMask }) := by
  induction rs with
  | nil => rfl
  | cons r tl ih =>
    by_cases h : r.ProcessorMask &&& kCpuMask = 0 <;>
      simp [CacheCPUInfoFilter, List.filterMap_cons, filterSLPIRecord, h,
        List.filter_cons] at ih ⊢ <;>
      simp [ih]

/-- Every record surviving the fixed-topology filter has a non-zero mask
inside the virtual CPU set. -/
theorem mem_CacheCPUInfoFilter (rs : List SYSTEM_LOGICAL_PROCESSOR_INFORMATION)
    (r' : SYSTEM_LOGICAL_PROCESSOR_INFORMATION) (h : r' ∈ CacheCPUInfoFilter rs) :
    r'.ProcessorMask ≠ 0 ∧ inVirtualMask r'.ProcessorMask := by
  rcases List.mem_filterMap.mp h with ⟨r, _, hf⟩
  unfold filterSLPIRecord at hf
  by_cases hm : r.ProcessorMask &&& kCpuMask = 0 <;> simp [hm] at hf
  subst hf
  exact ⟨hm, inVirtualMask_land _⟩

/-- A kept extended record's rewritten `Size` is the single-group payload
size of its source record. -/
theorem filterExRecord_size (r r' : ExRecord) (h : filterExRecord r = some r') :
    r'.Size = singleGroupSizeOf r := by
  rcases r with ⟨sz, payload⟩
  cases payload <;> simp only [filterExRecord] at h <;>
    (try split_ifs at h) <;> (try cases h) <;> rfl

/-- Under the size hypothesis of the compaction argument, the filtered
chain is never longer (in bytes) than its source chain. -/
theorem exTotalBytes_filter_le (rs : List ExRecord)
    (H : ∀ r ∈ rs, singleGroupSizeOf r ≤ r.Size) :
    exTotalBytes (CacheCPUInfoExFilter rs) ≤ exTotalBytes rs := by
  induction rs with
  | nil => simp [CacheCPUInfoExFilter, exTotalBytes]
  | cons r tl ih =>
    have hr := H r (List.mem_cons_self r tl)
    have htl := ih (fun x hx => H x (List.mem_cons_of_mem r hx))
    cases hf : filterExRecord r with
    | none =>
      simp only [CacheCPUInfoExFilter, List.filterMap_cons, hf] at *
      calc exTotalBytes (tl.filterMap filterExRecord) ≤ exTotalBytes tl := htl
        _ ≤ r.Size + exTotalBytes tl := Nat.le_add_left _ _
        _ = exTotalBytes (r :: tl) := by simp [exTotalBytes]
    | some r2 =>
      have h2 : r2.Size ≤ r.Size := (filterExRecord_size r r2 hf) ▸ hr
      simp only [CacheCPUInfoExFilter, List.filterMap_cons, hf] at *
      have : exTotalBytes (r2 :: tl.filterMap filterExRecord)
          = r2.Size + exTotalBytes (tl.filterMap filterExRecord) := by
        simp [exTotalBytes]
      rw [this]
      have : exTotalBytes (r :: tl) = r.Size + exTotalBytes tl := by simp [exTotalBytes]
      rw [this]
      exact Nat.add_le_add h2 htl

/-- A record is within the virtual CPU set: every group mask it carries is
a subset of `kCpuMask`, and (for a Group record) every processor count is
at most `kNumCpus`.  Unknown-relationship records never satisfy it (they
never occur in filtered output). -/
def ExRecord.withinVirtualSet : ExRecord → Prop
  | ⟨_, .processor _ p⟩ => ∀ g ∈ p.GroupMask, inVirtualMask g.Mask
  | ⟨_, .numaNode _ p⟩ => ∀ g ∈ p.GroupMasks, inVirtualMask g.Mask
  | ⟨_, .cache p⟩ => ∀ g ∈ p.GroupMasks, inVirtualMask g.Mask
  | ⟨_, .group p⟩ => ∀ g ∈ p.GroupInfo,
      inVirtualMask g.ActiveProcessorMask ∧
      g.ActiveProcessorCount ≤ kNumCpus ∧ g.MaximumProcessorCount ≤ kNumCpus
  | ⟨_, .unknown _ _⟩ => False

instance (r : ExRecord) : Decidable r.withinVirtualSet :=
  match r with
  | ⟨_, .processor _ p⟩ =>
    inferInstanceAs (Decidable (∀ g ∈ p.GroupMask, inVirtualMask g.Mask))
  | ⟨_, .numaNode _ p⟩ =>
    inferInstanceAs (Decidable (∀ g ∈ p.GroupMasks, inVirtualMask g.Mask))
  | ⟨_, .cache p⟩ =>
    inferInstanceAs (Decidable (∀ g ∈ p.GroupMasks, inVirtualMask g.Mask))
  | ⟨_, .group p⟩ =>
    inferInstanceAs (Decidable (∀ g ∈ p.GroupInfo,
      inVirtualMask g.ActiveProcessorMask ∧
      g.ActiveProcessorCount ≤ kNumCpus ∧ g.MaximumProcessorCount ≤ kNumCpus))
  | ⟨_, .unknown _ _⟩ => inferInstanceAs (Decidable False)

/-- Every record surviving the extended-topology filter lies within the
virtual CPU set. -/
theorem mem_CacheCPUInfoExFilter_withinVirtualSet (rs : List ExRecord) (r' : ExRecord)
    (h : r' ∈ CacheCPUInfoExFilter rs) : r'.withinVirtualSet := by
  rcases List.mem_filterMap.mp h with ⟨r, _, hf⟩
  rcases r with ⟨sz, payload⟩
  cases payload <;> simp only [filterExRecord] at hf <;>
    (try split_ifs at hf) <;> (try cases hf) <;>
    simp_all [ExRecord.withinVirtualSet, inVirtualMask_land]

/-! ### Claim theorems -/

/-- C4: during extended-topology filtering, a Group-relationship record
with `ActiveGroupCount = 0` is dropped; a kept Group record has its
maximum and active group counts clamped to 1 (active becomes exactly 1,
maximum becomes `min maximum 1`), its first group's maximum and active
processor counts clamped to `kNumCpus`, its first group's active-processor
mask intersected with `kCpuMask`, and its declared size rewritten to the
single-group payload size `groupSingleGroupSize`.  In particular an input
record with `ActiveGroupCount = 3` yields `ActiveGroupCount = 1` and size
`groupSingleGroupSize`. -/
theorem C4_group_record_clamping (s : Nat) (p : GROUP_RELATIONSHIP) :
    filterExRecord ⟨s, .group p⟩ =
      if p.ActiveGroupCount = 0 then none
      else
        some ⟨groupSingleGroupSize, .group
          ⟨min p.MaximumGroupCount 1, 1,
            [⟨min (p.GroupInfo.head?.getD PROCESSOR_GROUP_INFO.zero).MaximumProcessorCount kNumCpus,
              min (p.GroupInfo.head?.getD PROCESSOR_GROUP_INFO.zero).ActiveProcessorCount kNumCpus,
              (p.GroupInfo.head?.getD PROCESSOR_GROUP_INFO.zero).ActiveProcessorMask &&& kCpuMask⟩]⟩⟩ := by
  simp only [filterExRecord]
  split_ifs with h0 <;> try rfl
  all_goals
    simp_all [Option.some.injEq, ExRecord.mk.injEq, ExPayload.group.injEq,
      GROUP_RELATIONSHIP.mk.injEq, List.cons.injEq, PROCESSOR_GROUP_INFO.mk.injEq]
  all_goals repeat' apply And.intro
  all_goals first | rfl | omega

/-- C5: the fixed-topology filter is a stable filter-and-rewrite — the
cached records are exactly the input records whose masks intersect
`kCpuMask`, in original order, with masks replaced by the intersection;
every cached record has a non-zero mask inside the virtual set; a record
whose mask is disjoint from `kCpuMask` is absent from the output. -/
theorem C5_fixed_filter_stable (rs : List SYSTEM_LOGICAL_PROCESSOR_INFORMATION) :
    (CacheCPUInfoFilter rs
      = (rs.filter (fun r => r.ProcessorMask &&& kCpuMask != 0)).map
          (fun r => { r with ProcessorMask := r.ProcessorMask &&& kCpuMask }))
  ∧ (∀ r', r' ∈ CacheCPUInfoFilter rs ↔
      ∃ r, r ∈ rs ∧ r.ProcessorMask &&& kCpuMask ≠ 0 ∧
        r' = { r with ProcessorMask := r.ProcessorMask &&& kCpuMask })
  ∧ (∀ r' ∈ CacheCPUInfoFilter rs,
      r'.ProcessorMask ≠ 0 ∧ r'.ProcessorMask &&& kCpuMask = r'.ProcessorMask)
  ∧ (∀ r ∈ rs, r.ProcessorMask &&& kCpuMask = 0 → r ∉ CacheCPUInfoFilter rs) := by
  refine ⟨CacheCPUInfoFilter_eq rs, ?_, ?_, ?_⟩
  · intro r'
    constructor
    · intro h
      rcases List.mem_filterMap.mp h with ⟨r, hr, hf⟩
      unfold filterSLPIRecord at hf
      by_cases hm : r.ProcessorMask &&& kCpuMask = 0 <;> simp [hm] at hf
      exact ⟨r, hr, hm, hf.symm⟩
    · rintro ⟨r, hr, hm, rfl⟩
      exact List.mem_filterMap.mpr ⟨r, hr, by simp [filterSLPIRecord, hm]⟩
  · exact fun r' h => mem_CacheCPUInfoFilter rs r' h
  · intro r hr hm hmem
    rcases mem_CacheCPUInfoFilter rs r hmem with ⟨hne, hsub⟩
    exact hne (by rw [← hsub, hm])

/-- C5 witness: concrete instantiation — the record with mask `0x3000000`
(bits 24-25, disjoint from `kCpuMask`) is absent from the filtered output,
and the partially overlapping record with mask `0x1FFFFFF` is retained
with exactly the intersection `0xFFFFFF`. -/
theorem C5_fixed_filter_stable_witness :
    (⟨0x3000000, 2, 0⟩ : SYSTEM_LOGICAL_PROCESSOR_INFORMATION) ∉
      CacheCPUInfoFilter [⟨0x3000000, 2, 0⟩, ⟨0x1FFFFFF, 0, 7⟩]
  ∧ (⟨0xFFFFFF, 0, 7⟩ : SYSTEM_LOGICAL_PROCESSOR_INFORMATION) ∈
      CacheCPUInfoFilter [⟨0x3000000, 2, 0⟩, ⟨0x1FFFFFF, 0, 7⟩] := by
  constructor
  · exact (C5_fixed_filter_stable [⟨0x3000000, 2, 0⟩, ⟨0x1FFFFFF, 0, 7⟩]).2.2.2
      ⟨0x3000000, 2, 0⟩ (by decide) (by decide)
  · exact ((C5_fixed_filter_stable [⟨0x3000000, 2, 0⟩, ⟨0x1FFFFFF, 0, 7⟩]).2.1
      ⟨0xFFFFFF, 0, 7⟩).mpr ⟨⟨0x1FFFFFF, 0, 7⟩, by decide, by decide, by decide⟩

/-- C7: `MySetThreadIdealProcessor` fails with the local `(DWORD)-1`
invalid-parameter result, without invoking the raw provider, for every
requested index that is `≥ kNumCpus` and not the `MAXIMUM_PROCESSORS`
sentinel; every in-range index and the sentinel are forwarded (the boolean
component records the provider invocation), the provider's `(DWORD)-1`
failure value is returned verbatim, and a successful previous-ideal value
is reduced modulo `kNumCpus` and therefore lies below `kNumCpus`. -/
theorem C7_ideal_processor_clamp (orig : Nat → Nat) (i : Nat) :
    (i ≥ kNumCpus → i ≠ MAXIMUM_PROCESSORS →
      MySetThreadIdealProcessor orig i = (false, DWORD_NEG1))
  ∧ ((i < kNumCpus ∨ i = MAXIMUM_PROCESSORS) →
      (MySetThreadIdealProcessor orig i).1 = true
    ∧ (orig i = DWORD_NEG1 → (MySetThreadIdealProcessor orig i).2 = DWORD_NEG1)
    ∧ (orig i ≠ DWORD_NEG1 →
        (MySetThreadIdealProcessor orig i).2 = orig i % kNumCpus
      ∧ (MySetThreadIdealProcessor orig i).2 < kNumCpus)) := by
  constructor
  · intro h1 h2
    unfold MySetThreadIdealProcessor
    rw [if_pos ⟨h1, h2⟩]
  · intro h
    have hcond : ¬(i ≥ kNumCpus ∧ i ≠ MAXIMUM_PROCESSORS) := by
      rcases h with h | h
      · exact fun hc => absurd h (Nat.not_lt.mpr hc.1)
      · exact fun hc => hc.2 h
    have hbody : MySetThreadIdealProcessor orig i
        = if orig i = DWORD_NEG1 then (true, orig i) else (true, orig i % kNumCpus) := by
      unfold MySetThreadIdealProcessor
      rw [if_neg hcond]
    refine ⟨?_, ?_, ?_⟩
    · rw [hbody]; split <;> rfl
    · intro hf; rw [hbody, if_pos hf]; exact hf
    · intro hf; rw [hbody, if_neg hf]
      exact ⟨rfl, Nat.mod_lt _ (by norm_num [kNumCpus])⟩

/-- C7 witness: with the build constant `kNumCpus = 24`, index 30 is
rejected locally with `(DWORD)-1` and no provider call; index 3 is
forwarded and a raw previous-ideal of 100 comes back as `100 % 24 = 4 <
24`; the sentinel 64 is forwarded and a raw failure is returned
verbatim. -/
theorem C7_ideal_processor_clamp_witness :
    MySetThreadIdealProcessor (fun _ => 100) 30 = (false, DWORD_NEG1)
  ∧ (MySetThreadIdealProcessor (fun _ => 100) 3).1 = true
  ∧ (MySetThreadIdealProcessor (fun _ => 100) 3).2 = 4
  ∧ (MySetThreadIdealProcessor (fun _ => DWORD_NEG1) 64).1 = true
  ∧ (MySetThreadIdealProcessor (fun _ => DWORD_NEG1) 64).2 = DWORD_NEG1 := by
  refine ⟨(C7_ideal_processor_clamp (fun _ => 100) 30).1 (by decide) (by decide),
    ((C7_ideal_processor_clamp (fun _ => 100) 3).2 (by decide)).1,
    ?_,
    ((C7_ideal_processor_clamp (fun _ => DWORD_NEG1) 64).2 (by decide)).1,
    ((C7_ideal_processor_clamp (fun _ => DWORD_NEG1) 64).2 (by decide)).2.1 (by decide)⟩
  have h := (((C7_ideal_processor_clamp (fun _ => 100) 3).2 (by decide)).2.2 (by decide)).1
  simpa using h

/-- C8: the system-info facade returns the raw provider's structure with
only `dwNumberOfProcessors` replaced by `min(reported, kNumCpus)`; every
other field is unchanged; the result is independent of the logging flag
(the only state), hence of call order; `MyGetNativeSystemInfo` applies the
identical transformation; raw counts at or below `kNumCpus` pass through
unchanged, and (at this build's `kNumCpus = 24`) a raw count of 32 is
reported as 24. -/
theorem C8_system_info_facade (c1 c2 : Bool) (s : SYSTEM_INFO) :
    (MyGetSystemInfo c1 s).2.dwNumberOfProcessors = min s.dwNumberOfProcessors kNumCpus
  ∧ (MyGetSystemInfo c1 s).2.wProcessorArchitecture = s.wProcessorArchitecture
  ∧ (MyGetSystemInfo c1 s).2.wReserved = s.wReserved
  ∧ (MyGetSystemInfo c1 s).2.dwPageSize = s.dwPageSize
  ∧ (MyGetSystemInfo c1 s).2.lpMinimumApplicationAddress = s.lpMinimumApplicationAddress
  ∧ (MyGetSystemInfo c1 s).2.lpMaximumApplicationAddress = s.lpMaximumApplicationAddress
  ∧ (MyGetSystemInfo c1 s).2.dwActiveProcessorMask = s.dwActiveProcessorMask
  ∧ (MyGetSystemInfo c1 s).2.dwProcessorType = s.dwProcessorType
  ∧ (MyGetSystemInfo c1 s).2.dwAllocationGranularity = s.dwAllocationGranularity
  ∧ (MyGetSystemInfo c1 s).2.wProcessorLevel = s.wProcessorLevel
  ∧ (MyGetSystemInfo c1 s).2.wProcessorRevision = s.wProcessorRevision
  ∧ (MyGetSystemInfo c1 s).2 = (MyGetSystemInfo c2 s).2
  ∧ (MyGetNativeSystemInfo c1 s).2 = (MyGetSystemInfo c1 s).2
  ∧ (s.dwNumberOfProcessors ≤ kNumCpus →
      (MyGetSystemInfo c1 s).2.dwNumberOfProcessors = s.dwNumberOfProcessors)
  ∧ (MyGetSystemInfo c1 { s with dwNumberOfProcessors := 32 }).2.dwNumberOfProcessors
      = kNumCpus := by
  unfold MyGetSystemInfo MyGetNativeSystemInfo
  refine ⟨rfl, rfl, rfl, rfl, rfl, rfl, rfl, rfl, rfl, rfl, rfl, rfl, rfl,
    fun h => by simpa using h, by simp [kNumCpus]⟩

/-- C8 witness: a concrete raw structure reporting 8 processors (at or
below the virtual count) passes through unchanged, and one reporting 32 is
reported with 24 (the virtual count). -/
theorem C8_system_info_facade_witness :
    (MyGetSystemInfo false ⟨9, 0, 4096, 65536, 140737488289791, 0xFF, 8, 8664,
        65536, 6, 42954⟩).2.dwNumberOfProcessors = 8
  ∧ (MyGetSystemInfo false ⟨9, 0, 4096, 65536, 140737488289791, 0xFFFFFFFF, 32, 8664,
        65536, 6, 42954⟩).2.dwNumberOfProcessors = 24 := by
  obtain ⟨-, -, -, -, -, -, -, -, -, -, -, -, -, h14, -⟩ := C8_system_info_facade false true
    ⟨9, 0, 4096, 65536, 140737488289791, 0xFF, 8, 8664, 65536, 6, 42954⟩
  obtain ⟨-, -, -, -, -, -, -, -, -, -, -, -, -, -, h15⟩ := C8_system_info_facade false true
    ⟨9, 0, 4096, 65536, 140737488289791, 0xFFFFFFFF, 32, 8664, 65536, 6, 42954⟩
  exact ⟨h14 (by decide), by simpa [kNumCpus] using h15⟩

/-- C10: the process-affinity clamp tolerates absent output pointers — the
raw boolean result is returned unchanged; on raw success each non-null
pointee (and only those) is intersected with `kCpuMask`, each
independently of the other pointer; a null pointer stays null (is never
dereferenced); on raw failure neither pointee is modified. -/
theorem C10_process_affinity_null_tolerant (retval : Bool) (pm sm pm2 sm2 : Option Nat) :
    (MyGetProcessAffinityMask retval pm sm).1 = retval
  ∧ (retval = true →
      (MyGetProcessAffinityMask retval pm sm).2.1 = pm.map (· &&& kCpuMask)
    ∧ (MyGetProcessAffinityMask retval pm sm).2.2 = sm.map (· &&& kCpuMask))
  ∧ (retval = false →
      (MyGetProcessAffinityMask retval pm sm).2.1 = pm
    ∧ (MyGetProcessAffinityMask retval pm sm).2.2 = sm)
  ∧ (pm = none → (MyGetProcessAffinityMask retval pm sm).2.1 = none)
  ∧ (sm = none → (MyGetProcessAffinityMask retval pm sm).2.2 = none)
  ∧ (MyGetProcessAffinityMask retval pm sm).2.1 = (MyGetProcessAffinityMask retval pm sm2).2.1
  ∧ (MyGetProcessAffinityMask retval pm sm).2.2 = (MyGetProcessAffinityMask retval pm2 sm).2.2 := by
  unfold MyGetProcessAffinityMask
  cases retval <;> simp <;> intro h <;> simp [h]

/-- C10 witness: with a null process-mask pointer and a non-null
system-mask pointer holding `0xFFFFFFFF`, a successful raw call yields a
null process output and `0xFFFFFF` in the system output. -/
theorem C10_process_affinity_null_tolerant_witness :
    (MyGetProcessAffinityMask true none (some 0xFFFFFFFF)).2.1 = none
  ∧ (MyGetProcessAffinityMask true none (some 0xFFFFFFFF)).2.2 = some 0xFFFFFF := by
  have h := C10_process_affinity_null_tolerant true none (some 0xFFFFFFFF) none none
  refine ⟨h.2.2.2.1 rfl, ?_⟩
  rw [(h.2.1 rfl).2]
  decide

/-- C6: two-phase round trip for both topology queries, from any state in
which the cache is populated (as it is after any successful call; both
failing calls below also leave the state unchanged, so the second query
runs "immediately after" the first).  A query with an absent buffer or a
too-small `*ReturnedLength` fails, signals `ERROR_INSUFFICIENT_BUFFER`,
stores the required size `S` in `*ReturnedLength`, and writes nothing; a
following query with a buffer of size at least `S` succeeds, writes
exactly the `S` cached bytes, and sets `*ReturnedLength` to `S`. -/
theorem C6_two_phase_round_trip (recs : List SYSTEM_LOGICAL_PROCESSOR_INFORMATION)
    (prov : FixedProvider) (allocOk : Bool) (bp : Bool) (len : Nat)
    (rel : LOGICAL_PROCESSOR_RELATIONSHIP) (dataEx : List ExRecord)
    (provx : ExProvider) (allocOkx : Bool) (bpx : Bool) (lenx : Nat) :
    ((bp = false ∨ len < recs.length * sizeofSLPI) →
        MyGetLogicalProcessorInformation ⟨some recs⟩ prov allocOk bp (some len)
          = (⟨some recs⟩, ⟨false, some (recs.length * sizeofSLPI), none, false, true⟩))
  ∧ (∀ len2, recs.length * sizeofSLPI ≤ len2 →
        MyGetLogicalProcessorInformation ⟨some recs⟩ prov allocOk true (some len2)
          = (⟨some recs⟩, ⟨true, some (recs.length * sizeofSLPI), some recs, false, false⟩))
  ∧ ((bpx = false ∨ lenx < exTotalBytes dataEx) →
        MyGetLogicalProcessorInformationEx (some (rel, dataEx)) rel provx allocOkx bpx (some lenx)
          = (some (rel, dataEx), ⟨false, some (exTotalBytes dataEx), none, false, true⟩))
  ∧ (∀ len2, exTotalBytes dataEx ≤ len2 →
        MyGetLogicalProcessorInformationEx (some (rel, dataEx)) rel provx allocOkx true (some len2)
          = (some (rel, dataEx), ⟨true, some (exTotalBytes dataEx), some dataEx, false, false⟩)) := by
  refine ⟨?_, ?_, ?_, ?_⟩
  · intro hlt
    unfold MyGetLogicalProcessorInformation EnsureCPUInfo
    rcases hlt with hbp | hlt
    · subst hbp; simp
    · simp [hlt]
  · intro len2 hge
    unfold MyGetLogicalProcessorInformation EnsureCPUInfo
    simp [Nat.not_lt.mpr hge]
  · intro hlt
    unfold MyGetLogicalProcessorInformationEx
    rcases hlt with hbp | hlt
    · subst hbp; simp
    · simp [hlt]
  · intro len2 hge
    unfold MyGetLogicalProcessorInformationEx
    simp [Nat.not_lt.mpr hge]

/-- C6 witness: a concrete cached state (one fixed record, `S = 32` bytes;
one extended Group record, `S = 80` bytes): the absent-buffer probe fails
with the required size and no data, and the follow-up sized query returns
exactly the cached records. -/
theorem C6_two_phase_round_trip_witness :
    MyGetLogicalProcessorInformation ⟨some [⟨1, 0, 0⟩]⟩ ⟨true, true, [], false⟩ true false (some 0)
      = (⟨some [⟨1, 0, 0⟩]⟩, ⟨false, some 32, none, false, true⟩)
  ∧ MyGetLogicalProcessorInformation ⟨some [⟨1, 0, 0⟩]⟩ ⟨true, true, [], false⟩ true true (some 32)
      = (⟨some [⟨1, 0, 0⟩]⟩, ⟨true, some 32, some [⟨1, 0, 0⟩], false, false⟩)
  ∧ MyGetLogicalProcessorInformationEx
        (some (4, [⟨80, .group ⟨1, 1, [⟨24, 24, 0xFFFFFF⟩]⟩⟩])) 4
        ⟨true, true, [], false⟩ true false (some 0)
      = (some (4, [⟨80, .group ⟨1, 1, [⟨24, 24, 0xFFFFFF⟩]⟩⟩]),
          ⟨false, some 80, none, false, true⟩)
  ∧ MyGetLogicalProcessorInformationEx
        (some (4, [⟨80, .group ⟨1, 1, [⟨24, 24, 0xFFFFFF⟩]⟩⟩])) 4
        ⟨true, true, [], false⟩ true true (some 80)
      = (some (4, [⟨80, .group ⟨1, 1, [⟨24, 24, 0xFFFFFF⟩]⟩⟩]),
          ⟨true, some 80, some [⟨80, .group ⟨1, 1, [⟨24, 24, 0xFFFFFF⟩]⟩⟩], false, false⟩) := by
  obtain ⟨h1, h2, h3, h4⟩ := C6_two_phase_round_trip [⟨1, 0, 0⟩] ⟨true, true, [], false⟩
    true false 0 4 [⟨80, .group ⟨1, 1, [⟨24, 24, 0xFFFFFF⟩]⟩⟩] ⟨true, true, [], false⟩
    true false 0
  exact ⟨h1 (Or.inl rfl), h2 32 (by decide), h3 (Or.inl rfl), h4 80 (by decide)⟩

/-- C9: safety of the in-place compaction in `CacheCPUInfoExLocked` —
whenever every input record's declared size is at least its single-group
payload layout size (true of every well-formed chain the OS produces),
each kept record's rewritten size is at most its original declared size,
after any prefix of the walk the bytes written never exceed the bytes
read, and the total filtered output never exceeds the provider-reported
input length. -/
theorem C9_compaction_safety (rs : List ExRecord)
    (H : ∀ r ∈ rs, singleGroupSizeOf r ≤ r.Size) :
    (∀ r ∈ rs, ∀ r', filterExRecord r = some r' → r'.Size ≤ r.Size)
  ∧ (∀ k, exTotalBytes (CacheCPUInfoExFilter (rs.take k)) ≤ exTotalBytes (rs.take k))
  ∧ exTotalBytes (CacheCPUInfoExFilter rs) ≤ exTotalBytes rs := by
  refine ⟨?_, ?_, exTotalBytes_filter_le rs H⟩
  · intro r hr r' hf
    rw [filterExRecord_size r r' hf]
    exact H r hr
  · intro k
    exact exTotalBytes_filter_le (rs.take k) (fun r hr => H r (List.mem_of_mem_take hr))

/-- C9 witness: a Group record with slack (declared size 88 ≥ 80) plus an
unknown-relationship record; the filtered output occupies 80 of the 98
input bytes. -/
theorem C9_compaction_safety_witness :
    exTotalBytes (CacheCPUInfoExFilter
        [⟨88, .group ⟨4, 3, [⟨64, 64, 0xFFFFFFFF⟩]⟩⟩, ⟨10, .unknown 17 5⟩])
      ≤ exTotalBytes [⟨88, .group ⟨4, 3, [⟨64, 64, 0xFFFFFFFF⟩]⟩⟩, ⟨10, .unknown 17 5⟩] :=
  (C9_compaction_safety
    [⟨88, .group ⟨4, 3, [⟨64, 64, 0xFFFFFFFF⟩]⟩⟩, ⟨10, .unknown 17 5⟩] (by decide)).2.2

/-- A failed `CacheCPUInfo` leaves the fixed cache exactly as it was. -/
theorem CacheCPUInfo_fail_state (st : FixedCacheState) (prov : FixedProvider) (allocOk : Bool)
    (h : (CacheCPUInfo st prov allocOk).1 = false) :
    (CacheCPUInfo st prov allocOk).2 = st := by
  obtain ⟨c⟩ := st
  cases c <;> unfold CacheCPUInfo at h ⊢ <;> split_ifs at h ⊢ <;>
    first | rfl | (simp at h)

/-- A failed `EnsureCPUInfo` leaves the fixed cache exactly as it was. -/
theorem EnsureCPUInfo_fail_state (st : FixedCacheState) (prov : FixedProvider) (allocOk : Bool)
    (h : (EnsureCPUInfo st prov allocOk).1 = false) :
    (EnsureCPUInfo st prov allocOk).2 = st := by
  obtain ⟨c⟩ := st
  cases c with
  | none => exact CacheCPUInfo_fail_state ⟨none⟩ prov allocOk h
  | some v => simp [EnsureCPUInfo] at h

/-- C1 counterexample: the claim quantifies over all entry points,
including the group-affinity and extended ideal-processor ones; but
`MyGetThreadGroupAffinity` returns the raw provider's `GROUP_AFFINITY`
unchanged even when its mask `0x3000000` (bits 24-25) lies entirely
outside `kCpuMask`, and `MySetThreadIdealProcessorEx` returns the raw
previous-ideal processor number 30 ≥ `kNumCpus = 24` unchanged. -/
theorem C1_counterexample :
    (MyGetThreadGroupAffinity true (some ⟨0x3000000, 0⟩)).2 = some ⟨0x3000000, 0⟩
  ∧ ¬inVirtualMask 0x3000000
  ∧ (MySetThreadIdealProcessorEx true (some ⟨0, 30⟩)).2 = some ⟨0, 30⟩
  ∧ ¬(30 < kNumCpus) := by decide

/-- C1 (amended): every entry point that performs clamping keeps
caller-visible masks inside `kCpuMask` and indices below `kNumCpus`: the
process-affinity query outputs on success, the forwarded and returned
thread/process affinity masks, the non-failure ideal-processor result, the
system-info processor count, and every record of both topology caches.
The group-affinity entry points and the extended ideal-processor entry
point, by contrast, are logging-only pass-throughs that return the raw
provider's values unchanged. -/
theorem C1_virtual_set_boundary (retval : Bool) (pm sm : Option Nat)
    (origP : Nat → Bool) (reqP : Nat) (origT : Nat → Nat) (reqT : Nat)
    (origI : Nat → Nat) (i : Nat) (c : Bool) (s : SYSTEM_INFO)
    (rs : List SYSTEM_LOGICAL_PROCESSOR_INFORMATION) (xs : List ExRecord)
    (gc : Option Nat) (ga : Option (List Nat)) (tga sga : Option GROUP_AFFINITY)
    (pn : Option PROCESSOR_NUMBER) :
    (retval = true → ∀ v, (MyGetProcessAffinityMask retval pm sm).2.1 = some v →
        inVirtualMask v)
  ∧ (retval = true → ∀ v, (MyGetProcessAffinityMask retval pm sm).2.2 = some v →
        inVirtualMask v)
  ∧ inVirtualMask (MySetProcessAffinityMask origP reqP).2
  ∧ inVirtualMask (MySetThreadAffinityMask origT reqT).1
  ∧ inVirtualMask (MySetThreadAffinityMask origT reqT).2
  ∧ ((MySetThreadIdealProcessor origI i).2 ≠ DWORD_NEG1 →
        (MySetThreadIdealProcessor origI i).2 < kNumCpus)
  ∧ (MyGetSystemInfo c s).2.dwNumberOfProcessors ≤ kNumCpus
  ∧ (MyGetNativeSystemInfo c s).2.dwNumberOfProcessors ≤ kNumCpus
  ∧ (∀ r' ∈ CacheCPUInfoFilter rs, inVirtualMask r'.ProcessorMask)
  ∧ (∀ r' ∈ CacheCPUInfoExFilter xs, r'.withinVirtualSet)
  ∧ MyGetProcessGroupAffinity retval gc ga = (retval, gc, ga)
  ∧ MyGetThreadGroupAffinity retval tga = (retval, tga)
  ∧ MySetThreadGroupAffinity retval sga = (retval, sga)
  ∧ MySetThreadIdealProcessorEx retval pn = (retval, pn) := by
  refine ⟨?_, ?_, inVirtualMask_land reqP, inVirtualMask_land _, inVirtualMask_land reqT,
    ?_, Nat.min_le_right _ _, Nat.min_le_right _ _,
    fun r' h => (mem_CacheCPUInfoFilter rs r' h).2,
    fun r' h => mem_CacheCPUInfoExFilter_withinVirtualSet xs r' h,
    rfl, rfl, rfl, rfl⟩
  · intro h v hv
    subst h
    simp only [MyGetProcessAffinityMask, if_true] at hv
    rcases Option.map_eq_some'.mp hv with ⟨w, _, hw⟩
    exact hw ▸ inVirtualMask_land w
  · intro h v hv
    subst h
    simp only [MyGetProcessAffinityMask, if_true] at hv
    rcases Option.map_eq_some'.mp hv with ⟨w, _, hw⟩
    exact hw ▸ inVirtualMask_land w
  · intro hne
    by_cases hc : i ≥ kNumCpus ∧ i ≠ MAXIMUM_PROCESSORS
    · exfalso
      apply hne
      unfold MySetThreadIdealProcessor
      rw [if_pos hc]
    · have hbody : MySetThreadIdealProcessor origI i
          = if origI i = DWORD_NEG1 then (true, origI i) else (true, origI i % kNumCpus) := by
        unfold MySetThreadIdealProcessor
        rw [if_neg hc]
      rw [hbody] at hne ⊢
      by_cases hf : origI i = DWORD_NEG1
      · rw [if_pos hf] at hne
        exact absurd hf hne
      · rw [if_neg hf]
        exact Nat.mod_lt _ (by norm_num [kNumCpus])

/-- C1 witness: concrete inputs for the hypothesis-bearing conjuncts — a
successful affinity query with raw masks `0xFFFFFFFF` yields outputs
inside the virtual set, a forwarded ideal-processor request returning raw
index 100 is reduced below 24, and a concrete filtered record keeps only
in-set mask bits. -/
theorem C1_virtual_set_boundary_witness :
    (∀ v, (MyGetProcessAffinityMask true (some 0xFFFFFFFF) (some 0xF000000)).2.1 = some v →
        inVirtualMask v)
  ∧ (MySetThreadIdealProcessor (fun _ => 100) 3).2 < kNumCpus
  ∧ (∀ r' ∈ CacheCPUInfoFilter [⟨0x1FFFFFF, 0, 0⟩], inVirtualMask r'.ProcessorMask) := by
  obtain ⟨h1, h2, h3, h4, h5, h6, h7, h8, h9, h10, h11, h12, h13, h14⟩ :=
    C1_virtual_set_boundary true (some 0xFFFFFFFF) (some 0xF000000)
      (fun _ => true) 0 (fun _ => 0) 0 (fun _ => 100) 3 false
      ⟨0, 0, 0, 0, 0, 0, 0, 0, 0, 0, 0⟩ [⟨0x1FFFFFF, 0, 0⟩] [] none none none none none
  exact ⟨h1 rfl, h6 (by decide), h9⟩

/-- C2 counterexample: a failed extended rebuild requested for
relationship 3 while the cache held bytes for relationship 2 does not
leave the previously cached bytes and tag present — the rebuild frees them
first, so the failing call (allocation failure) leaves the cache empty,
not "exactly as it was before the attempt". -/
theorem C2_counterexample :
    CacheCPUInfoExLocked (some (2, [⟨48, .cache ⟨1, 8, 64, 32768, 1, 1, [⟨3, 0⟩]⟩⟩])) 3
        ⟨true, true, [], true⟩ false
      = (false, none)
  ∧ (some (2, [⟨48, .cache ⟨1, 8, 64, 32768, 1, 1, [⟨3, 0⟩]⟩⟩]) : ExCacheState) ≠ none := by
  decide

/-- C2 (amended): on any failure — allocation failure included — the
failing call returns failure; the fixed-topology cache is left exactly as
it was before the attempt (safe to retry).  The extended cache, whose
previous contents are discarded at the start of every rebuild, is left
empty and untagged after a failed rebuild — never partially populated, and
the cleared tag forces the next call to retry the rebuild; a successful
rebuild publishes the filtered data under the requested relationship. -/
theorem C2_alloc_failure_state (st : FixedCacheState) (prov : FixedProvider) (allocOk : Bool)
    (stx : ExCacheState) (rel : LOGICAL_PROCESSOR_RELATIONSHIP) (provx : ExProvider)
    (allocOkx : Bool) :
    ((CacheCPUInfo st prov allocOk).1 = false → (CacheCPUInfo st prov allocOk).2 = st)
  ∧ ((CacheCPUInfoExLocked stx rel provx allocOkx).1 = false →
        (CacheCPUInfoExLocked stx rel provx allocOkx).2 = none)
  ∧ ((CacheCPUInfoExLocked stx rel provx allocOkx).1 = true →
        (CacheCPUInfoExLocked stx rel provx allocOkx).2
          = some (rel, CacheCPUInfoExFilter provx.records)) := by
  refine ⟨CacheCPUInfo_fail_state st prov allocOk, ?_, ?_⟩ <;>
    intro h <;> unfold CacheCPUInfoExLocked at h ⊢ <;> split_ifs at h ⊢ <;>
    first | rfl | (simp at h)

/-- C2 witness: concrete allocation failures — the fixed cache build with
`allocOk = false` leaves the empty cache empty, and the extended rebuild
with `allocOk = false` leaves the cache empty. -/
theorem C2_alloc_failure_state_witness :
    (CacheCPUInfo ⟨none⟩ ⟨true, true, [⟨7, 0, 0⟩], false⟩ false).2 = ⟨none⟩
  ∧ (CacheCPUInfoExLocked none 1 ⟨true, true, [], false⟩ false).2 = none := by
  obtain ⟨h1, h2, -⟩ := C2_alloc_failure_state ⟨none⟩ ⟨true, true, [⟨7, 0, 0⟩], false⟩ false
    none 1 ⟨true, true, [], false⟩ false
  exact ⟨h1 (by decide), h2 (by decide)⟩

/-- C3 counterexample: with an empty cache and a raw provider whose size
probe fails, a call with a null `ReturnedLength` fails locally (`FALSE`)
without ever forwarding null arguments to the raw provider — although the
raw provider's null-forward result would have been `TRUE` — contradicting
"regardless of cache state, the call is forwarded and the provider's
result returned unchanged". -/
theorem C3_counterexample :
    (MyGetLogicalProcessorInformation ⟨none⟩ ⟨false, true, [], true⟩ true true none).2
      = ⟨false, none, none, false, false⟩
  ∧ (⟨false, true, [], true⟩ : FixedProvider).nullForwardResult = true := by decide

/-- C3 (amended): `MyGetLogicalProcessorInformation` first ensures the
cache; only when the cache is present or its build succeeds does a call
with a null `ReturnedLength` forward to the raw provider with null
arguments and return its result unchanged.  When the cache build fails,
the call fails locally without forwarding (and without touching the
cache). -/
theorem C3_null_length_forwarding (st : FixedCacheState) (prov : FixedProvider)
    (allocOk : Bool) (bufferPresent : Bool) :
    ((EnsureCPUInfo st prov allocOk).1 = true →
        MyGetLogicalProcessorInformation st prov allocOk bufferPresent none
          = ((EnsureCPUInfo st prov allocOk).2,
              ⟨prov.nullForwardResult, none, none, true, false⟩))
  ∧ ((EnsureCPUInfo st prov allocOk).1 = false →
        MyGetLogicalProcessorInformation st prov allocOk bufferPresent none
          = (st, ⟨false, none, none, false, false⟩)) := by
  constructor
  · intro h
    unfold MyGetLogicalProcessorInformation
    simp [h]
  · intro h
    unfold MyGetLogicalProcessorInformation
    simp [h, EnsureCPUInfo_fail_state st prov allocOk h]

/-- C3 witness: with a populated cache the null-`ReturnedLength` call is
forwarded and returns the raw provider's `TRUE` unchanged. -/
theorem C3_null_length_forwarding_witness :
    MyGetLogicalProcessorInformation ⟨some [⟨1, 0, 0⟩]⟩ ⟨false, false, [], true⟩ false true none
      = (⟨some [⟨1, 0, 0⟩]⟩, ⟨true, none, none, true, false⟩) := by
  have h := (C3_null_length_forwarding ⟨some [⟨1, 0, 0⟩]⟩ ⟨false, false, [], true⟩
    false true).1 (by decide)
  simpa using h

end CpuLimiter
